import Mathlib

/-!
Verification development for the frame-aware spatial-algebra core of the
Ravelin rigid-body library (Pose3 and the spatial-arithmetic helpers).

The embedding models poses (frames) as heap-allocated nodes: a heap is a
list of pose records and a frame reference is an optional index into that
heap, so that reference identity of the C++ shared pointers becomes index
equality and the null pointer becomes the absent index.  Real-valued
components are modelled as rationals, which is exact for every operation
the source performs (quaternion products, rotations by unit quaternions,
vector arithmetic).  Fallible operations return an explicit error value;
the error type separates the thrown FrameException from assertion-failure
or undefined-behaviour termination and from fuel exhaustion of the
modelled loops.
-/

/-- A 3-dimensional vector with exact rational components, modelling the
ORIGIN3, VECTOR3 and POINT3 component triples of the source. -/
structure V3 where
  x : ℚ
  y : ℚ
  z : ℚ
deriving DecidableEq, Repr

/-- A quaternion with exact rational components, modelling QUAT. -/
structure Quat where
  w : ℚ
  x : ℚ
  y : ℚ
  z : ℚ
deriving DecidableEq, Repr

/-- A 3 by 3 matrix stored as three rows, modelling MATRIX3. -/
structure M3 where
  r0 : V3
  r1 : V3
  r2 : V3
deriving DecidableEq, Repr

namespace V3

def zero : V3 := ⟨0, 0, 0⟩

def add (a b : V3) : V3 := ⟨a.x + b.x, a.y + b.y, a.z + b.z⟩

def sub (a b : V3) : V3 := ⟨a.x - b.x, a.y - b.y, a.z - b.z⟩

def neg (a : V3) : V3 := ⟨-a.x, -a.y, -a.z⟩

def smul (a : V3) (c : ℚ) : V3 := ⟨a.x * c, a.y * c, a.z * c⟩

/-- Cross product, modelling VECTOR3::cross. -/
def cross (a b : V3) : V3 :=
  ⟨a.y * b.z - a.z * b.y, a.z * b.x - a.x * b.z, a.x * b.y - a.y * b.x⟩

def dot (a b : V3) : ℚ := a.x * b.x + a.y * b.y + a.z * b.z

theorem ext3 (a b : V3) (hx : a.x = b.x) (hy : a.y = b.y) (hz : a.z = b.z) :
    a = b := by
  cases a; cases b; simp_all

end V3

namespace Quat

def one : Quat := ⟨1, 0, 0, 0⟩

/-- Quaternion Hamilton product, modelling QUAT multiplication. -/
def mul (p q : Quat) : Quat :=
  ⟨p.w * q.w - p.x * q.x - p.y * q.y - p.z * q.z,
   p.w * q.x + p.x * q.w + p.y * q.z - p.z * q.y,
   p.w * q.y - p.x * q.z + p.y * q.w + p.z * q.x,
   p.w * q.z + p.x * q.y - p.y * q.x + p.z * q.w⟩

/-- Conjugate.  Modelled from the spec: the rotation collaborator provides
invert for unit rotations (QUAT::invert is not under src); for a unit
quaternion the inverse is the conjugate. -/
def conj (q : Quat) : Quat := ⟨q.w, -q.x, -q.y, -q.z⟩

def neg (q : Quat) : Quat := ⟨-q.w, -q.x, -q.y, -q.z⟩

def smulq (q : Quat) (c : ℚ) : Quat := ⟨q.w * c, q.x * c, q.y * c, q.z * c⟩

def addq (p q : Quat) : Quat := ⟨p.w + q.w, p.x + q.x, p.y + q.y, p.z + q.z⟩

def dotq (p q : Quat) : ℚ := p.w * q.w + p.x * q.x + p.y * q.y + p.z * q.z

def normSq (q : Quat) : ℚ := q.w ^ 2 + q.x ^ 2 + q.y ^ 2 + q.z ^ 2

/-- The frame orientations of the library are unit rotations. -/
def unit (q : Quat) : Prop := normSq q = 1

instance (q : Quat) : Decidable q.unit := by unfold unit normSq; infer_instance

end Quat

/-- Rotation-matrix equivalent of a quaternion.  Modelled from the spec:
the rotation collaborator provides conversion to a 3 by 3 rotation-matrix
equivalent; for a quaternion q this is the matrix of the sandwich map
taking v to the vector part of q v q-conjugate, which is the standard
rotation matrix whenever q is a unit quaternion. -/
def quatToM3 (q : Quat) : M3 :=
  ⟨⟨q.w ^ 2 + q.x ^ 2 - q.y ^ 2 - q.z ^ 2, 2 * (q.x * q.y - q.w * q.z), 2 * (q.x * q.z + q.w * q.y)⟩,
   ⟨2 * (q.x * q.y + q.w * q.z), q.w ^ 2 - q.x ^ 2 + q.y ^ 2 - q.z ^ 2, 2 * (q.y * q.z - q.w * q.x)⟩,
   ⟨2 * (q.x * q.z - q.w * q.y), 2 * (q.y * q.z + q.w * q.x), q.w ^ 2 - q.x ^ 2 - q.y ^ 2 + q.z ^ 2⟩⟩

namespace M3

def mulv (m : M3) (v : V3) : V3 := ⟨m.r0.dot v, m.r1.dot v, m.r2.dot v⟩

def transposeM (m : M3) : M3 :=
  ⟨⟨m.r0.x, m.r1.x, m.r2.x⟩, ⟨m.r0.y, m.r1.y, m.r2.y⟩, ⟨m.r0.z, m.r1.z, m.r2.z⟩⟩

def col0 (m : M3) : V3 := ⟨m.r0.x, m.r1.x, m.r2.x⟩

def col1 (m : M3) : V3 := ⟨m.r0.y, m.r1.y, m.r2.y⟩

def col2 (m : M3) : V3 := ⟨m.r0.z, m.r1.z, m.r2.z⟩

def mulm (a b : M3) : M3 :=
  ⟨⟨a.r0.dot b.col0, a.r0.dot b.col1, a.r0.dot b.col2⟩,
   ⟨a.r1.dot b.col0, a.r1.dot b.col1, a.r1.dot b.col2⟩,
   ⟨a.r2.dot b.col0, a.r2.dot b.col1, a.r2.dot b.col2⟩⟩

def addm (a b : M3) : M3 := ⟨a.r0.add b.r0, a.r1.add b.r1, a.r2.add b.r2⟩

def subm (a b : M3) : M3 := ⟨a.r0.sub b.r0, a.r1.sub b.r1, a.r2.sub b.r2⟩

/-- Skew-symmetric cross-product matrix of a vector, modelling
MATRIX3::skew_symmetric. -/
def skew (v : V3) : M3 :=
  ⟨⟨0, -v.z, v.y⟩, ⟨v.z, 0, -v.x⟩, ⟨-v.y, v.x, 0⟩⟩

end M3

/-- Action of a quaternion on a vector: multiplication by the sandwich
matrix.  Modelled from the spec: the rotation collaborator applies a
rotation to a 3-vector (the QUAT times ORIGIN3 operator is not under
src); for a unit quaternion this is the rotation it represents. -/
def qact (q : Quat) (v : V3) : V3 := (quatToM3 q).mulv v

theorem qact_neg (q : Quat) (v : V3) : qact q v.neg = (qact q v).neg := by
  cases q; cases v
  refine V3.ext3 _ _ ?_ ?_ ?_ <;>
    simp [qact, quatToM3, M3.mulv, V3.dot, V3.neg] <;> ring

theorem qact_conj_cancel (q : Quat) (v : V3) :
    qact q (qact q.conj v) = v.smul (q.normSq ^ 2) := by
  cases q; cases v
  refine V3.ext3 _ _ ?_ ?_ ?_ <;>
    simp [qact, quatToM3, M3.mulv, V3.dot, V3.smul, Quat.conj, Quat.normSq] <;> ring

theorem smul_one_id (v : V3) : v.smul 1 = v := by
  cases v; refine V3.ext3 _ _ ?_ ?_ ?_ <;> simp [V3.smul]

/-- A pose (frame): orientation quaternion q, translation x, and optional
reference to the parent frame, mirroring the POSE3 fields q, x, rpose.
The parent is a heap index; the absent index is the null pointer, meaning
the frame is anchored to the global frame. -/
structure POSE3 where
  q : Quat
  x : V3
  rpose : Option Nat
deriving DecidableEq, Repr

/-- A frame reference: heap index or the null (global) reference. -/
abbrev Ptr := Option Nat

/-- The heap of poses; a pose at list index i is the referent of pointer
some i, and pointer equality models shared-pointer identity. -/
abbrev Heap := List POSE3

/-- Failure modes of the embedded operations.  frameMismatch models a
thrown FrameException.  assertFail models the assert in the
common-ancestor search firing (or, with assertions compiled out, the null
dereference that follows): the process terminates without a catchable
library error.  stuck models fuel exhaustion of the embedded loops or a
dangling heap reference; no theorem below depends on a stuck result. -/
inductive Err where
  | frameMismatch : Err
  | assertFail : Err
  | stuck : Err
deriving DecidableEq, Repr

/-- Relative transform between two frames: the fields of TRANSFORM3 that
calc_transform fills in (source, target, rotation q, translation x). -/
structure TRANSFORM3 where
  source : Ptr
  target : Ptr
  q : Quat
  x : V3
deriving DecidableEq, Repr

/-- Dereference a frame pointer in the heap. -/
def lookp (h : Heap) (p : Ptr) : Except Err POSE3 :=
  match p with
  | none => .error .stuck
  | some i =>
    match h[i]? with
    | none => .error .stuck
    | some d => .ok d

/-- The chain walk of POSE3::is_common: starting from frame x, walk parent
links counting steps until the sought pointer p is met (returning the step
count) or the chain ends at null (returning none for not found). -/
def is_common (h : Heap) : Nat → Ptr → Ptr → Nat → Except Err (Option Nat)
  | 0, _, _, _ => .error .stuck
  | _ + 1, none, _, _ => .ok none
  | fuel + 1, some xi, p, i =>
    if (some xi : Ptr) = p then .ok (some i)
    else
      match h[xi]? with
      | none => .error .stuck
      | some d => is_common h fuel d.rpose p (i + 1)

/-- The common-link search loop of POSE3::calc_transform: candidate r
walks outward from the target; at each candidate the whole source chain is
scanned by is_common.  When the candidate has walked past the root to the
null pointer and the scan still fails, the next iteration asserts that r
is non-null: the assert fires (with assertions compiled out the code would
dereference null), modelled by the assertFail error. -/
def searchCommon (h : Heap) : Nat → Ptr → Ptr → Except Err (Ptr × Nat)
  | 0, _, _ => .error .stuck
  | fuel + 1, s, r =>
    match is_common h (fuel + 1) s r 0 with
    | .error e => .error e
    | .ok (some i) => .ok (r, i)
    | .ok none =>
      match r with
      | none => .error .assertFail
      | some ri =>
        match h[ri]? with
        | none => .error .stuck
        | some d => searchCommon h fuel s d.rpose

/-- The walk-to-root accumulation of calc_transform (cases for a null
target or null source): repeatedly left-compose the parent pose data onto
the accumulated rotation and translation until the parent link is null. -/
def foldUp (h : Heap) : Nat → Ptr → Quat → V3 → Except Err (Quat × V3)
  | 0, _, _, _ => .error .stuck
  | _ + 1, none, q, x => .ok (q, x)
  | fuel + 1, some pi, q, x =>
    match h[pi]? with
    | none => .error .stuck
    | some d => foldUp h fuel d.rpose (d.q.mul q) (d.x.add (qact d.q x))

/-- The bounded left walk of the general case: from the current pointer,
step to the parent and fold its pose data, exactly n times.  Stepping from
the null pointer models the null dereference the source would perform. -/
def foldN (h : Heap) : Nat → Ptr → Quat → V3 → Nat → Except Err (Quat × V3)
  | _, _, q, x, 0 => .ok (q, x)
  | 0, _, _, _, _ + 1 => .error .stuck
  | fuel + 1, p, q, x, n + 1 =>
    match lookp h p with
    | .error e => .error e
    | .ok d =>
      match lookp h d.rpose with
      | .error e => .error e
      | .ok d2 => foldN h fuel d.rpose (d2.q.mul q) (d2.x.add (qact d2.q x)) n

/-- The right walk of the general case: fold parent pose data while the
current pointer differs from the common link r. -/
def foldUntil (h : Heap) : Nat → Ptr → Ptr → Quat → V3 → Except Err (Quat × V3)
  | 0, _, _, _, _ => .error .stuck
  | fuel + 1, t, r, q, x =>
    if t = r then .ok (q, x)
    else
      match lookp h t with
      | .error e => .error e
      | .ok d =>
        match lookp h d.rpose with
        | .error e => .error e
        | .ok d2 => foldUntil h fuel d.rpose r (d2.q.mul q) (d2.x.add (qact d2.q x))

/-- Embedding of POSE3::calc_transform: the relative transform from the
source frame to the target frame, by the five cases of the source: equal
frames; null target (walk source to the root); null source (walk target to
the root, then invert); equal parent references (direct sibling formula,
exactly as written in the source); and the general case (common-link
search, left and right walks, combination through the inverted right
rotation). -/
def calc_transform (h : Heap) (fuel : Nat) (source target : Ptr) :
    Except Err TRANSFORM3 :=
  if source = target then .ok ⟨source, target, Quat.one, V3.zero⟩
  else
    match target, source with
    | none, none => .error .stuck
    | none, some si =>
      match lookp h (some si) with
      | .error e => .error e
      | .ok d =>
        match foldUp h fuel d.rpose d.q d.x with
        | .error e => .error e
        | .ok (q, x) => .ok ⟨source, target, q, x⟩
    | some ti, none =>
      match lookp h (some ti) with
      | .error e => .error e
      | .ok d =>
        match foldUp h fuel d.rpose d.q d.x with
        | .error e => .error e
        | .ok (q, x) => .ok ⟨source, target, q.conj, qact q.conj x.neg⟩
    | some ti, some si =>
      match lookp h (some si), lookp h (some ti) with
      | .error e, _ => .error e
      | _, .error e => .error e
      | .ok sd, .ok td =>
        if sd.rpose = td.rpose then
          let rq := (td.q.conj).mul sd.q
          .ok ⟨source, target, rq, qact rq (sd.x.sub td.x)⟩
        else
          match searchCommon h fuel source target with
          | .error e => .error e
          | .ok (r, i) =>
            match foldN h fuel source sd.q sd.x i with
            | .error e => .error e
            | .ok (lq, lx) =>
              match foldUntil h fuel target r td.q td.x with
              | .error e => .error e
              | .ok (rq, rx) =>
                let iq := rq.conj
                .ok ⟨source, target, iq.mul lq, qact iq (lx.sub rx)⟩

/-- A frame-tagged 3D point. -/
structure POINT3 where
  v : V3
  pose : Ptr
deriving DecidableEq, Repr

/-- A frame-tagged twist (spatial velocity): angular upper part, linear
lower part. -/
structure TWIST where
  angular : V3
  linear : V3
  pose : Ptr
deriving DecidableEq, Repr

/-- A frame-tagged wrench (spatial force): force upper part, torque lower
part. -/
structure WRENCH where
  force : V3
  torque : V3
  pose : Ptr
deriving DecidableEq, Repr

/-- A frame-tagged spatial acceleration. -/
structure SACCEL where
  upper : V3
  lower : V3
  pose : Ptr
deriving DecidableEq, Repr

/-- A frame-tagged rigid-body spatial inertia: mass m, first moment h,
inertia tensor J. -/
structure SPATIAL_RB_INERTIA where
  m : ℚ
  h : V3
  J : M3
  pose : Ptr
deriving DecidableEq, Repr

/-- Application of a resolved transform to a point.  Modelled from the
spec: TRANSFORM3::transform for points is not under src; the spec gives
result = rotation times point plus translation, tagged with the target
frame. -/
def TRANSFORM3.transformPoint (Tx : TRANSFORM3) (p : POINT3) : POINT3 :=
  { v := (qact Tx.q p.v).add Tx.x, pose := Tx.target }

/-- Embedding of the static POSE3::transform for POINT3: guard that the
asserted source frame is identical to the frame tag of the point, resolve
the relative transform, apply it. -/
def transformPointS (h : Heap) (fuel : Nat) (source target : Ptr)
    (p : POINT3) : Except Err POINT3 :=
  if source ≠ p.pose then .error .frameMismatch
  else
    match calc_transform h fuel source target with
    | .error e => .error e
    | .ok Tx => .ok (Tx.transformPoint p)

/-- Embedding of the static POSE3::transform for TWIST: guard the source
frame tag, resolve the transform, set r to the transform translation and E
to the rotation, and produce the pair E times angular and E times linear
minus the cross of r with E times angular, tagged with the target. -/
def transformTwistS (h : Heap) (fuel : Nat) (source target : Ptr)
    (t : TWIST) : Except Err TWIST :=
  if source ≠ t.pose then .error .frameMismatch
  else
    match calc_transform h fuel source target with
    | .error e => .error e
    | .ok Tx =>
      let E := quatToM3 Tx.q
      let Etop := E.mulv t.angular
      .ok { angular := Etop,
            linear := (E.mulv t.linear).sub (V3.cross Tx.x Etop),
            pose := target }

/-- Embedding of the static POSE3::transform for WRENCH, identical in
shape to the twist case with force in the upper and torque in the lower
slot. -/
def transformWrenchS (h : Heap) (fuel : Nat) (source target : Ptr)
    (w : WRENCH) : Except Err WRENCH :=
  if source ≠ w.pose then .error .frameMismatch
  else
    match calc_transform h fuel source target with
    | .error e => .error e
    | .ok Tx =>
      let E := quatToM3 Tx.q
      let Etop := E.mulv w.force
      .ok { force := Etop,
            torque := (E.mulv w.torque).sub (V3.cross Tx.x Etop),
            pose := target }

/-- Embedding of the static POSE3::transform for SPATIAL_RB_INERTIA:
guard the source frame tag, resolve the transform, and apply the
block formulas of the source (mass copied, first moment E h minus m r,
tensor by the skew-product expression). -/
def transformRBS (h : Heap) (fuel : Nat) (source target : Ptr)
    (I : SPATIAL_RB_INERTIA) : Except Err SPATIAL_RB_INERTIA :=
  if source ≠ I.pose then .error .frameMismatch
  else
    match calc_transform h fuel source target with
    | .error e => .error e
    | .ok Tx =>
      let r := Tx.x
      let E := quatToM3 Tx.q
      let ET := E.transposeM
      let mr := r.smul I.m
      let rx := M3.skew r
      let hx := M3.skew I.h
      let mrxrx := rx.mulm (M3.skew mr)
      let EhxETrx := ((E.mulm hx).mulm ET).mulm rx
      .ok { m := I.m,
            h := (E.mulv I.h).sub mr,
            J := ((EhxETrx.addm EhxETrx.transposeM).addm
                   ((E.mulm I.J).mulm ET)).subm mrxrx,
            pose := target }

/-- Per-element body of the wrench batch loop. -/
def applyWrench (Tx : TRANSFORM3) (target : Ptr) (w : WRENCH) : WRENCH :=
  let E := quatToM3 Tx.q
  let Etop := E.mulv w.force
  { force := Etop,
    torque := (E.mulv w.torque).sub (V3.cross Tx.x Etop),
    pose := target }

/-- Per-element body of the twist batch loop. -/
def applyTwist (Tx : TRANSFORM3) (target : Ptr) (t : TWIST) : TWIST :=
  let E := quatToM3 Tx.q
  let Etop := E.mulv t.angular
  { angular := Etop,
    linear := (E.mulv t.linear).sub (V3.cross Tx.x Etop),
    pose := target }

/-- Embedding of the batch POSE3::transform for a vector of wrenches.  The
returned pair is the final contents of the in-out result vector together
with the error raised, if any: an empty input clears the result and
returns immediately; otherwise every element frame tag is checked against
the source frame before the transform is resolved and before the result
vector is touched, so on any failure the result vector holds its old
contents. -/
def transformWrenchVec (h : Heap) (fuel : Nat) (source target : Ptr)
    (w res : List WRENCH) : List WRENCH × Option Err :=
  match w with
  | [] => ([], none)
  | _ :: _ =>
    if w.any (fun e => decide (e.pose ≠ source)) then (res, some .frameMismatch)
    else
      match calc_transform h fuel source target with
      | .error e => (res, some e)
      | .ok Tx => (w.map (applyWrench Tx target), none)

/-- Embedding of the batch POSE3::transform for a vector of twists, with
the same control flow as the wrench batch. -/
def transformTwistVec (h : Heap) (fuel : Nat) (source target : Ptr)
    (t res : List TWIST) : List TWIST × Option Err :=
  match t with
  | [] => ([], none)
  | _ :: _ =>
    if t.any (fun e => decide (e.pose ≠ source)) then (res, some .frameMismatch)
    else
      match calc_transform h fuel source target with
      | .error e => (res, some e)
      | .ok Tx => (t.map (applyTwist Tx target), none)

/-- The r and E precomputation of SPARITH::to_transform used by the
acceleration transforms: E is the rotation block and r is the transpose of
E applied to the negated translation. -/
def sparithRE (Tx : TRANSFORM3) : V3 × M3 :=
  let E := quatToM3 Tx.q
  (E.transposeM.mulv Tx.x.neg, E)

/-- Per-element body of SPARITH::transform_accel: upper becomes E times
upper; lower becomes E times the difference of lower and the cross of r
with the untransformed upper. -/
def applyAccel (target : Ptr) (r : V3) (E : M3) (a : SACCEL) : SACCEL :=
  { upper := E.mulv a.upper,
    lower := E.mulv (a.lower.sub (V3.cross r a.upper)),
    pose := target }

/-- Embedding of the batch SPARITH::transform_accel: the source frame is
the frame tag of the first element; an empty input clears the result and
returns; all later element tags are validated against the source tag
before anything else; when source and target coincide the input is copied
to the result; otherwise the relative transform is resolved (the source
calls POSE3::calc_relative_pose, the name calc_transform carries in this
revision) and applied elementwise. -/
def transformAccelVec (h : Heap) (fuel : Nat) (target : Ptr)
    (t res : List SACCEL) : List SACCEL × Option Err :=
  match t with
  | [] => ([], none)
  | a :: rest =>
    if rest.any (fun e => decide (e.pose ≠ a.pose)) then (res, some .frameMismatch)
    else if a.pose = target then (t, none)
    else
      match calc_transform h fuel a.pose target with
      | .error e => (res, some e)
      | .ok Tx =>
        let rE := sparithRE Tx
        (t.map (applyAccel target rE.1 rE.2), none)

/-- Embedding of POSE3::operator* composing this pose with another: a
frame mismatch error when the two parent references differ, otherwise the
pose with rotation q1 q2 and translation q1 acting on x2 plus x1.  The
result is built by the two-argument constructor, whose relative-pose
argument defaults to the null pointer (modelled from the spec: the
constructor declaration is not under src and the spec says a pose is
constructed from rotation and translation plus an optional parent, absent
meaning anchored to the global frame). -/
def POSE3.mulp (p1 p2 : POSE3) : Except Err POSE3 :=
  if p1.rpose ≠ p2.rpose then .error .frameMismatch
  else .ok { q := p1.q.mul p2.q, x := (qact p1.q p2.x).add p1.x, rpose := none }

/-- Embedding of POSE3::invert (in place, and the static variant which
copies and then inverts in place): the rotation is inverted first and the
new translation is the new rotation applied to the negated old
translation; the parent reference is not touched. -/
def POSE3.invert (p : POSE3) : POSE3 :=
  let q2 := p.q.conj
  { q := q2, x := qact q2 p.x.neg, rpose := p.rpose }

/-- Relative scalar equality within tolerance.  Modelled from the spec:
OPS::rel_equal is not under src; the spec compares against a tolerance,
and the standard form bounds the difference by the tolerance scaled by the
larger magnitude, at least one. -/
def relEqualScalar (a b tol : ℚ) : Bool :=
  |a - b| ≤ tol * max (max |a| |b|) 1

/-- Angular difference test.  Modelled from the spec: QUAT::calc_angle is
not under src; the spec compares rotations via an angular-difference
metric against a tolerance, modelled here by the sine squared of the half
angle between the unit quaternions (zero exactly when the rotations
agree). -/
def angleZeroWithin (q1 q2 : Quat) (tol : ℚ) : Bool :=
  1 - (q1.dotq q2) ^ 2 ≤ tol

/-- Embedding of POSE3::rel_equal: a frame mismatch error when the two
parent references are not identical, otherwise the componentwise
translation comparison followed by the rotation comparison. -/
def POSE3.rel_equal (p1 p2 : POSE3) (tol : ℚ) : Except Err Bool :=
  if p1.rpose ≠ p2.rpose then .error .frameMismatch
  else
    .ok (relEqualScalar p1.x.x p2.x.x tol && relEqualScalar p1.x.y p2.x.y tol &&
         relEqualScalar p1.x.z p2.x.z tol && angleZeroWithin p1.q p2.q tol)

/-- Spherical interpolation of rotations.  Modelled from the spec:
QUAT::slerp belongs to the rotation collaborator and is not under src; the
spec characterises it as shortest-arc interpolation that reproduces the
endpoints at parameters zero and one, modelled by the endpoint cases and,
in between, the sign-corrected linear blend, which at the half parameter
is the shortest-arc midpoint up to positive scaling. -/
def Quat.slerp (q1 q2 : Quat) (t : ℚ) : Quat :=
  if t = 0 then q1
  else if t = 1 then q2
  else (q1.smulq (1 - t)).addq
    ((if q1.dotq q2 < 0 then q2.neg else q2).smulq t)

/-- The shortest-arc rotation midpoint of two quaternions: the
sign-corrected sum, halved (a positive rescaling of the unit midpoint). -/
def shortestArcMidpoint (q1 q2 : Quat) : Quat :=
  ((q1.addq (if q1.dotq q2 < 0 then q2.neg else q2)).smulq (1 / 2))

/-- Embedding of POSE3::interpolate: linear interpolation of the
translations, slerp of the rotations, and the result built by the
two-argument constructor whose relative-pose argument defaults to the
null pointer. -/
def POSE3.interpolate (T1 T2 : POSE3) (t : ℚ) : POSE3 :=
  { q := Quat.slerp T1.q T2.q t,
    x := (T1.x.smul (1 - t)).add (T2.x.smul t),
    rpose := none }

instance {ε α : Type} [DecidableEq ε] [DecidableEq α] : DecidableEq (Except ε α) :=
  fun a b =>
    match a, b with
    | .error e1, .error e2 =>
      match decEq e1 e2 with
      | isTrue h => isTrue (h ▸ rfl)
      | isFalse h => isFalse fun hc => h (by injection hc)
    | .error _, .ok _ => isFalse fun hc => by injection hc
    | .ok _, .error _ => isFalse fun hc => by injection hc
    | .ok x, .ok y =>
      match decEq x y with
      | isTrue h => isTrue (h ▸ rfl)
      | isFalse h => isFalse fun hc => h (by injection hc)

theorem negv_negv (v : V3) : v.neg.neg = v := by
  cases v; refine V3.ext3 _ _ ?_ ?_ ?_ <;> simp [V3.neg]

theorem conj_conj (q : Quat) : q.conj.conj = q := by
  cases q; simp [Quat.conj]

/-- Two root frames of disjoint forests together with one child frame in
each: the ancestor chains of frames 2 and 3 share no common frame. -/
def hC1 : Heap :=
  [⟨Quat.one, ⟨0, 0, 0⟩, none⟩, ⟨Quat.one, ⟨5, 0, 0⟩, none⟩,
   ⟨Quat.one, ⟨1, 0, 0⟩, some 0⟩, ⟨Quat.one, ⟨2, 0, 0⟩, some 1⟩]

/-- C1: for frames of disjoint forests the claim says calc_transform
fails with a reported structural or frame error.  The code instead walks
the candidate past the root and fails its assertion (with assertions
compiled out it dereferences null), a process abort distinct from the
thrown FrameException: the evaluation exhibits the assertion failure and
that it is not the frame-error report. -/
theorem claim_C1 :
    calc_transform hC1 10 (some 2) (some 3) = Except.error Err.assertFail ∧
    Err.assertFail ≠ Err.frameMismatch := by
  decide

/-- Two root frames whose parent references are both null, one rotated a
half turn about the x axis and displaced: the sibling case of
calc_transform resolves between them. -/
def h2C : Heap :=
  [⟨⟨0, 1, 0, 0⟩, ⟨0, 1, 0⟩, none⟩, ⟨Quat.one, ⟨0, 0, 0⟩, none⟩]

/-- A twist tagged with frame 1 of the round-trip heap. -/
def t0C : TWIST := ⟨⟨0, 0, 1⟩, ⟨0, 0, 0⟩, some 1⟩

/-- C2: the claim says the round trip of any quantity tagged B through
the resolved transforms B to A and back A to B returns the quantity
within tolerance.  The sibling case of calc_transform computes its
translation by rotating the translation difference with the full relative
rotation, inconsistent with the inverse-composition formula of the
general case, so the round trip through two root frames adds a constant
offset of 2 in the linear part of this twist: the evaluation exhibits the
exact round-trip result and that it differs from the original. -/
theorem claim_C2 :
    (transformTwistS h2C 8 (some 1) (some 0) t0C).bind
        (transformTwistS h2C 8 (some 0) (some 1)) =
      Except.ok ⟨⟨0, 0, 1⟩, ⟨2, 0, 0⟩, some 1⟩ ∧
    (⟨⟨0, 0, 1⟩, ⟨2, 0, 0⟩, some 1⟩ : TWIST) ≠ t0C := by
  constructor
  · norm_num [transformTwistS, calc_transform, lookp, h2C, t0C, qact, quatToM3,
      M3.mulv, V3.dot, V3.sub, V3.add, V3.cross, V3.neg, Quat.conj, Quat.mul,
      Quat.one, Except.bind]
  · intro hc
    simp [t0C] at hc

/-- C3: on a non-empty batch of wrenches, twists, or accelerations, a
single element whose frame tag differs from the source frame (for
accelerations, from the tag of the first element) makes the whole call
fail with the frame-mismatch error while the result vector keeps its old
contents, before any transform resolution or output production. -/
theorem claim_C3 :
    (∀ (h : Heap) (fuel : Nat) (source target : Ptr) (a : WRENCH)
        (w res : List WRENCH), a ∈ w → a.pose ≠ source →
      transformWrenchVec h fuel source target w res =
        (res, some Err.frameMismatch)) ∧
    (∀ (h : Heap) (fuel : Nat) (source target : Ptr) (a : TWIST)
        (t res : List TWIST), a ∈ t → a.pose ≠ source →
      transformTwistVec h fuel source target t res =
        (res, some Err.frameMismatch)) ∧
    (∀ (h : Heap) (fuel : Nat) (target : Ptr) (a0 b : SACCEL)
        (rest res : List SACCEL), b ∈ rest → b.pose ≠ a0.pose →
      transformAccelVec h fuel target (a0 :: rest) res =
        (res, some Err.frameMismatch)) := by
  refine ⟨?_, ?_, ?_⟩
  · intro h fuel source target a w res hmem hne
    cases w with
    | nil => simp at hmem
    | cons b tl =>
      have hany : (b :: tl).any (fun e => decide (e.pose ≠ source)) = true :=
        List.any_eq_true.mpr ⟨a, hmem, decide_eq_true hne⟩
      simp only [transformWrenchVec]
      rw [if_pos hany]
  · intro h fuel source target a t res hmem hne
    cases t with
    | nil => simp at hmem
    | cons b tl =>
      have hany : (b :: tl).any (fun e => decide (e.pose ≠ source)) = true :=
        List.any_eq_true.mpr ⟨a, hmem, decide_eq_true hne⟩
      simp only [transformTwistVec]
      rw [if_pos hany]
  · intro h fuel target a0 b rest res hmem hne
    have hany : rest.any (fun e => decide (e.pose ≠ a0.pose)) = true :=
      List.any_eq_true.mpr ⟨b, hmem, decide_eq_true hne⟩
    simp only [transformAccelVec]
    rw [if_pos hany]

/-- A wrench tagged with frame 0. -/
def wA : WRENCH := ⟨⟨1, 0, 0⟩, ⟨0, 0, 0⟩, some 0⟩

/-- A wrench tagged with frame 1, mismatching wA. -/
def wB : WRENCH := ⟨⟨0, 1, 0⟩, ⟨0, 0, 0⟩, some 1⟩

/-- Pre-existing result contents used to observe that a failing batch does
not touch the result vector. -/
def resW : List WRENCH := [⟨⟨7, 7, 7⟩, ⟨7, 7, 7⟩, none⟩]

/-- A twist tagged with frame 0. -/
def tA : TWIST := ⟨⟨1, 0, 0⟩, ⟨0, 0, 0⟩, some 0⟩

/-- A twist tagged with frame 1, mismatching tA. -/
def tB : TWIST := ⟨⟨0, 1, 0⟩, ⟨0, 0, 0⟩, some 1⟩

/-- Pre-existing twist result contents. -/
def resT : List TWIST := [⟨⟨7, 7, 7⟩, ⟨7, 7, 7⟩, none⟩]

/-- An acceleration tagged with frame 0. -/
def aA : SACCEL := ⟨⟨1, 0, 0⟩, ⟨0, 0, 0⟩, some 0⟩

/-- An acceleration tagged with frame 1, mismatching aA. -/
def aB : SACCEL := ⟨⟨0, 1, 0⟩, ⟨0, 0, 0⟩, some 1⟩

/-- Pre-existing acceleration result contents. -/
def resA : List SACCEL := [⟨⟨7, 7, 7⟩, ⟨7, 7, 7⟩, none⟩]

/-- Witness for C3: concrete two-element batches with mismatched frame
tags fail with the frame-mismatch error and leave the result contents
unchanged, for wrenches, twists and accelerations. -/
theorem claim_C3_witness :
    transformWrenchVec [] 3 (some 0) none [wA, wB] resW =
      (resW, some Err.frameMismatch) ∧
    transformTwistVec [] 3 (some 0) none [tA, tB] resT =
      (resT, some Err.frameMismatch) ∧
    transformAccelVec [] 3 none [aA, aB] resA =
      (resA, some Err.frameMismatch) := by
  refine ⟨?_, ?_, ?_⟩
  · exact claim_C3.1 [] 3 (some 0) none wB [wA, wB] resW (by simp)
      (by simp [wB])
  · exact claim_C3.2.1 [] 3 (some 0) none tB [tA, tB] resT (by simp)
      (by simp [tB])
  · exact claim_C3.2.2 [] 3 none aA aB [aB] resA (by simp) (by simp [aA, aB])

/-- The heap of the concrete scenario of the spec: frames A and B are
both anchored to the global frame with identity rotations, A translated
one unit along x and B one unit along y. -/
def hAB : Heap := [⟨Quat.one, ⟨1, 0, 0⟩, none⟩, ⟨Quat.one, ⟨0, 1, 0⟩, none⟩]

/-- C4: resolving the transform from frame A to frame B of the concrete
scenario yields the identity rotation and translation one, minus one,
zero, and applying it to the origin point tagged A yields that same
point tagged B. -/
theorem claim_C4 :
    calc_transform hAB 5 (some 0) (some 1) =
      Except.ok ⟨some 0, some 1, Quat.one, ⟨1, -1, 0⟩⟩ ∧
    transformPointS hAB 5 (some 0) (some 1) ⟨⟨0, 0, 0⟩, some 0⟩ =
      Except.ok ⟨⟨1, -1, 0⟩, some 1⟩ := by
  constructor
  · norm_num [calc_transform, lookp, hAB, qact, quatToM3, M3.mulv, V3.dot,
      V3.sub, Quat.conj, Quat.mul, Quat.one]
  · norm_num [transformPointS, TRANSFORM3.transformPoint, calc_transform,
      lookp, hAB, qact, quatToM3, M3.mulv, V3.dot, V3.sub, V3.add,
      Quat.conj, Quat.mul, Quat.one]

/-- A pose with parent frame 0. -/
def cP5A : POSE3 := ⟨Quat.one, ⟨1, 0, 0⟩, some 0⟩

/-- Another pose with the same parent frame 0. -/
def cP5B : POSE3 := ⟨Quat.one, ⟨0, 1, 0⟩, some 0⟩

/-- Counterexample for C5: composing two poses whose common parent is
frame 0 succeeds, but the parent reference of the product is the null
pointer, not the parent of the right operand. -/
theorem claim_C5_cex :
    (POSE3.mulp cP5A cP5B).map POSE3.rpose = Except.ok none ∧
    cP5B.rpose = some 0 ∧ (none : Option Nat) ≠ some 0 := by
  refine ⟨?_, rfl, by simp⟩
  simp [POSE3.mulp, cP5A, cP5B, Except.map]

/-- C5 (amended): composing two poses fails with the frame-mismatch error
exactly when the parent references differ, and on success yields the
rotation q1 q2 and translation q1 applied to x2 plus x1 — but the parent
reference of the product is the null (global) reference, not the parent
of the right operand. -/
theorem claim_C5 : ∀ p1 p2 : POSE3,
    (POSE3.mulp p1 p2 = Except.error Err.frameMismatch ↔ p1.rpose ≠ p2.rpose) ∧
    (p1.rpose = p2.rpose →
      POSE3.mulp p1 p2 =
        Except.ok ⟨p1.q.mul p2.q, (qact p1.q p2.x).add p1.x, none⟩) := by
  intro p1 p2
  by_cases hp : p1.rpose = p2.rpose <;> simp [POSE3.mulp, hp]

/-- Witness for C5: the concrete composition of the two sibling poses
succeeds and produces exactly the composed rotation and translation with
a null parent reference. -/
theorem claim_C5_witness :
    POSE3.mulp cP5A cP5B =
      Except.ok ⟨cP5A.q.mul cP5B.q, (qact cP5A.q cP5B.x).add cP5A.x, none⟩ ∧
    cP5A.rpose = cP5B.rpose :=
  ⟨(claim_C5 cP5A cP5B).2 rfl, rfl⟩

/-- C6: the frame-consistency guard compares frame references for
identity: relative equality of two poses produces a boolean exactly when
the parent references are identical and fails with the frame-mismatch
error on any non-identical pair (regardless of the numeric contents, so
two distinct frames with identical rotation and translation are still
different), and the static wrench transform entry point fails with the
frame-mismatch error whenever the asserted source frame is not the frame
tag of the wrench, producing no result. -/
theorem claim_C6 :
    (∀ (p1 p2 : POSE3) (tol : ℚ),
      (∃ b, POSE3.rel_equal p1 p2 tol = Except.ok b) ↔ p1.rpose = p2.rpose) ∧
    (∀ (p1 p2 : POSE3) (tol : ℚ), p1.rpose ≠ p2.rpose →
      POSE3.rel_equal p1 p2 tol = Except.error Err.frameMismatch) ∧
    (∀ (h : Heap) (fuel : Nat) (source target : Ptr) (w : WRENCH),
      source ≠ w.pose →
      transformWrenchS h fuel source target w =
        Except.error Err.frameMismatch) := by
  refine ⟨?_, ?_, ?_⟩
  · intro p1 p2 tol
    by_cases hp : p1.rpose = p2.rpose <;> simp [POSE3.rel_equal, hp]
  · intro p1 p2 tol hp
    simp [POSE3.rel_equal, hp]
  · intro h fuel source target w hne
    simp [transformWrenchS, hne]

/-- A pose whose frame of expression is frame 0 of the duplicate heap. -/
def pD1 : POSE3 := ⟨Quat.one, ⟨1, 2, 3⟩, some 0⟩

/-- A pose with identical rotation and translation whose frame of
expression is the distinct frame 1, whose heap contents are identical to
frame 0. -/
def pD2 : POSE3 := ⟨Quat.one, ⟨1, 2, 3⟩, some 1⟩

/-- A heap holding two distinct frame objects with identical rotation and
translation. -/
def hD : Heap := [⟨Quat.one, ⟨0, 0, 0⟩, none⟩, ⟨Quat.one, ⟨0, 0, 0⟩, none⟩]

/-- A wrench tagged with frame 1 of the duplicate heap. -/
def wD : WRENCH := ⟨⟨1, 0, 0⟩, ⟨0, 1, 0⟩, some 1⟩

/-- Witness for C6: two poses with identical rotation and translation but
distinct frame references fail relative equality with the frame-mismatch
error, and a static wrench transform with a mismatched asserted source
frame fails the same way. -/
theorem claim_C6_witness :
    POSE3.rel_equal pD1 pD2 1 = Except.error Err.frameMismatch ∧
    transformWrenchS hD 3 (some 0) (some 1) wD =
      Except.error Err.frameMismatch := by
  refine ⟨claim_C6.2.1 pD1 pD2 1 (by simp [pD1, pD2]),
          claim_C6.2.2 hD 3 (some 0) (some 1) wD (by simp [wD])⟩

theorem ext4 (p q : Quat) (hw : p.w = q.w) (hx : p.x = q.x) (hy : p.y = q.y)
    (hz : p.z = q.z) : p = q := by
  cases p; cases q; simp_all

theorem smul_sub_zero_add (a b : V3) : (a.smul 1).add (b.smul 0) = a := by
  cases a; cases b
  refine V3.ext3 _ _ ?_ ?_ ?_ <;> simp [V3.smul, V3.add]

theorem smul_sub_one_add (a b : V3) : (a.smul 0).add (b.smul 1) = b := by
  cases a; cases b
  refine V3.ext3 _ _ ?_ ?_ ?_ <;> simp [V3.smul, V3.add]

theorem smul_half_add (a b : V3) :
    (a.smul (1 - 1 / 2)).add (b.smul (1 / 2)) = (a.add b).smul (1 / 2) := by
  cases a; cases b
  refine V3.ext3 _ _ ?_ ?_ ?_ <;> simp [V3.smul, V3.add] <;> ring

theorem slerp_half (q1 q2 : Quat) :
    Quat.slerp q1 q2 (1 / 2) = shortestArcMidpoint q1 q2 := by
  unfold Quat.slerp shortestArcMidpoint
  rw [if_neg (by norm_num), if_neg (by norm_num)]
  by_cases hd : q1.dotq q2 < 0 <;>
    · simp only [hd, if_true, if_false]
      cases q1; cases q2
      refine ext4 _ _ ?_ ?_ ?_ ?_ <;>
        simp [Quat.smulq, Quat.addq, Quat.neg] <;> ring

/-- A pose whose parent is frame 0. -/
def cT1 : POSE3 := ⟨Quat.one, ⟨0, 0, 0⟩, some 0⟩

/-- Another pose with the same parent frame 0, displaced along x. -/
def cT2 : POSE3 := ⟨Quat.one, ⟨2, 0, 0⟩, some 0⟩

/-- Counterexample for C7: interpolating two poses that share the non-null
parent frame 0 at parameter one reproduces the rotation and translation
of the second pose but not its parent reference, which the constructor
defaults to the null pointer, so the claim that the frame is reproduced
exactly including the parent reference fails. -/
theorem claim_C7_cex :
    POSE3.interpolate cT1 cT2 1 ≠ cT2 ∧
    (POSE3.interpolate cT1 cT2 1).q = cT2.q ∧
    (POSE3.interpolate cT1 cT2 1).x = cT2.x ∧
    (POSE3.interpolate cT1 cT2 1).rpose ≠ cT2.rpose := by
  have hq : POSE3.interpolate cT1 cT2 1 = ⟨cT2.q, cT2.x, none⟩ := by
    simp only [POSE3.interpolate, Quat.slerp]
    rw [if_neg (by norm_num)]
    simp [smul_sub_one_add]
  refine ⟨?_, by rw [hq], by rw [hq], by rw [hq]; simp [cT2]⟩
  rw [hq]
  intro hc
  have := congrArg POSE3.rpose hc
  simp [cT2] at this

/-- C7 (amended): for every pair of poses, interpolation at parameter
zero reproduces the rotation and translation of the first and at one
those of the second, while the parent reference of the result is always
the null (global) reference rather than the parent of the inputs; at the
half parameter the translation is the componentwise midpoint and the
rotation the shortest-arc midpoint. -/
theorem claim_C7 : ∀ T1 T2 : POSE3,
    POSE3.interpolate T1 T2 0 = ⟨T1.q, T1.x, none⟩ ∧
    POSE3.interpolate T1 T2 1 = ⟨T2.q, T2.x, none⟩ ∧
    (POSE3.interpolate T1 T2 (1 / 2)).q = shortestArcMidpoint T1.q T2.q ∧
    (POSE3.interpolate T1 T2 (1 / 2)).x = (T1.x.add T2.x).smul (1 / 2) ∧
    (POSE3.interpolate T1 T2 (1 / 2)).rpose = none := by
  intro T1 T2
  refine ⟨?_, ?_, ?_, ?_, rfl⟩
  · simp only [POSE3.interpolate, Quat.slerp]
    simp [smul_sub_zero_add]
  · simp only [POSE3.interpolate, Quat.slerp]
    rw [if_neg (by norm_num)]
    simp [smul_sub_one_add]
  · simp only [POSE3.interpolate, slerp_half]
  · simp only [POSE3.interpolate, smul_half_add]

/-- C8: whenever the static rigid-body spatial-inertia transform
succeeds, the scalar mass of the result equals the input mass exactly,
for every heap, fuel, source and target frame. -/
theorem claim_C8 : ∀ (h : Heap) (fuel : Nat) (source target : Ptr)
    (I R : SPATIAL_RB_INERTIA),
    transformRBS h fuel source target I = Except.ok R → R.m = I.m := by
  intro h fuel source target I R hok
  unfold transformRBS at hok
  by_cases hf : source ≠ I.pose
  · rw [if_pos hf] at hok
    exact absurd hok (by simp)
  · rw [if_neg hf] at hok
    cases hcalc : calc_transform h fuel source target with
    | error e => rw [hcalc] at hok; exact absurd hok (by simp)
    | ok Tx =>
      rw [hcalc] at hok
      simp only [Except.ok.injEq] at hok
      rw [← hok]

/-- The witness heap for C8: one root frame with identity rotation and
zero translation. -/
def hW : Heap := [⟨Quat.one, ⟨0, 0, 0⟩, none⟩]

/-- A concrete rigid-body spatial inertia tagged with frame 0. -/
def JW : SPATIAL_RB_INERTIA :=
  ⟨2, ⟨1, 2, 3⟩, ⟨⟨1, 0, 0⟩, ⟨0, 1, 0⟩, ⟨0, 0, 1⟩⟩, some 0⟩

/-- The result of transforming JW from frame 0 to the global frame. -/
def RW : SPATIAL_RB_INERTIA :=
  ⟨2, ⟨1, 2, 3⟩, ⟨⟨1, 0, 0⟩, ⟨0, 1, 0⟩, ⟨0, 0, 1⟩⟩, none⟩

/-- Witness for C8: the concrete inertia transform succeeds and its mass
equals the input mass. -/
theorem claim_C8_witness :
    transformRBS hW 5 (some 0) none JW = Except.ok RW ∧ RW.m = JW.m := by
  have hc : calc_transform hW 5 (some 0) none =
      Except.ok ⟨some 0, none, Quat.one, ⟨0, 0, 0⟩⟩ := by
    simp [calc_transform, lookp, hW, foldUp]
  have h1 : transformRBS hW 5 (some 0) none JW = Except.ok RW := by
    unfold transformRBS
    rw [if_neg (by simp [JW]), hc]
    norm_num [JW, RW, qact, quatToM3, M3.mulv, M3.mulm, M3.addm, M3.subm,
      M3.transposeM, M3.skew, M3.col0, M3.col1, M3.col2, V3.dot, V3.sub,
      V3.add, V3.smul, Quat.one]
  exact ⟨h1, claim_C8 hW 5 (some 0) none JW RW h1⟩

/-- C9: transforming an empty vector of wrenches, twists, or
accelerations succeeds for every heap and every source and target frame
pair (in particular for frames of disjoint forests), clears the result
vector, raises no error, and performs no frame validation and no
transform resolution. -/
theorem claim_C9 : ∀ (h : Heap) (fuel : Nat) (source target : Ptr)
    (rw : List WRENCH) (rt : List TWIST) (ra : List SACCEL),
    transformWrenchVec h fuel source target [] rw = ([], none) ∧
    transformTwistVec h fuel source target [] rt = ([], none) ∧
    transformAccelVec h fuel target [] ra = ([], none) := by
  intro h fuel source target rw rt ra
  exact ⟨rfl, rfl, rfl⟩

/-- C10: inverting a pose never modifies the parent reference, and for a
pose whose orientation quaternion is a unit quaternion, inverting twice
(the in-place and the static variant both reduce to this function)
restores the original rotation and translation exactly. -/
theorem claim_C10 : ∀ p : POSE3,
    (POSE3.invert p).rpose = p.rpose ∧
    (p.q.unit → POSE3.invert (POSE3.invert p) = p) := by
  intro p
  refine ⟨rfl, fun hu => ?_⟩
  cases p with
  | mk q x rp =>
    show POSE3.mk (q.conj.conj) (qact q.conj.conj ((qact q.conj x.neg).neg)) rp
        = POSE3.mk q x rp
    rw [conj_conj, qact_neg q.conj x, negv_negv, qact_conj_cancel, hu]
    norm_num [smul_one_id]

/-- A concrete pose with a non-trivial unit orientation and a non-null
parent reference. -/
def pW : POSE3 := ⟨⟨3 / 5, 4 / 5, 0, 0⟩, ⟨1, 2, 3⟩, some 7⟩

/-- Witness for C10: the concrete double inversion restores the pose, and
its orientation is a unit quaternion. -/
theorem claim_C10_witness :
    POSE3.invert (POSE3.invert pW) = pW ∧ pW.q.unit := by
  have hu : pW.q.unit := by
    norm_num [pW, Quat.unit, Quat.normSq]
  exact ⟨(claim_C10 pW).2 hu, hu⟩
